import Mathlib

/-!
Shallow embedding of `src/src-tauri/src/whisper_stt.rs` and
`src/src-tauri/src/audio_session.rs` from the lingo-leap repository.

External effects (the base64 library decoder, the filesystem, subprocess
spawning) are modelled as oracles carried in a `World` record; each
operation returns the list of observable events it performed together
with its `Result` value, mirroring the Rust control flow line by line.
-/

set_option autoImplicit false

namespace LingoLeap

/-- The observable outcome of `std::process::Command::output()` for one
candidate: `notFound` models `Err(_)` (binary absent / cannot start),
`ran out` models `Ok(output)` with exit status and captured streams. -/
inductive SpawnOutcome where
  | notFound
  | ran (success : Bool) (stdout : String) (stderr : String)
deriving DecidableEq, Repr

/-- Environment-determined behaviour of one candidate invocation:
the spawn outcome, and the result of `std::fs::read_to_string(txt_path)`
performed right after a successful exit (`none` models `Err(_)`:
artifact missing or unreadable). -/
structure CandidateBehavior where
  outcome : SpawnOutcome
  artifact : Option String
deriving DecidableEq, Repr

/-- Observable events performed by a call, in order. -/
inductive Event where
  | createFile (path : String)
  | writeFile (path : String)
  | invoke (cmd : String) (args : List String)
  | readFile (path : String)
  | logWarn (cmd : String) (stderr : String)
  | removeFile (path : String)
deriving DecidableEq, Repr

/-- The oracle world for one `transcribe_audio` request: the base64
decoder (library code, treated as an oracle from input string to bytes
or a display error), the temp directory, the process id, whether
`File::create` and `write_all` succeed (with their error displays),
the `HOME` variable, and per-candidate external behaviour. -/
structure World where
  decode : String → Except String (List Nat)
  tempDir : String
  pid : Nat
  createOk : Bool
  createErr : String
  writeOk : Bool
  writeErr : String
  home : Option String
  behav : String → CandidateBehavior

/-- `std::path::Path::join` for the paths this code builds
(directory, then one file-name component). -/
def pathJoin (dir file : String) : String := dir ++ "/" ++ file

/-- `get_whisper_model_path`: `$HOME/.cache/whisper/ggml-base.bin`,
with `HOME` defaulting to `"."`. -/
def get_whisper_model_path (w : World) : String :=
  pathJoin (w.home.getD ".") ".cache/whisper/ggml-base.bin"

/-- The temp input path chosen by `transcribe_audio`:
`temp_dir.join(format!("whisper_input_{}.wav", std::process::id()))`. -/
def audio_path (w : World) : String :=
  pathJoin w.tempDir ("whisper_input_" ++ toString w.pid ++ ".wav")

/-- The temp output path chosen by `transcribe_audio`:
`temp_dir.join(format!("whisper_output_{}", std::process::id()))`. -/
def output_path (w : World) : String :=
  pathJoin w.tempDir ("whisper_output_" ++ toString w.pid)

/-- The argument template shared by the `whisper` and `whisper-cpp`
candidates. -/
def whisperArgs (modelPath audioPath language outputPath : String) :
    List String :=
  ["-m", modelPath, "-f", audioPath, "-l", language, "-otxt",
   "-of", outputPath]

/-- The static ordered candidate list `whisper_commands` from the
source (the loop in `try_whisper_cli`). -/
def whisper_commands (modelPath audioPath language outputPath : String) :
    List (String × List String) :=
  [("whisper", whisperArgs modelPath audioPath language outputPath),
   ("whisper-cpp", whisperArgs modelPath audioPath language outputPath)]

/-- The arguments of the trailing `faster-whisper` attempt. -/
def fasterWhisperArgs (audioPath language : String) : List String :=
  [audioPath, "--language", language, "--model", "base",
   "--output_format", "txt"]

/-- Rust `str::trim` (standard library), modelled over the character
list: strip leading and trailing whitespace characters. -/
def rustTrim (s : String) : String :=
  ⟨((s.data.dropWhile Char.isWhitespace).reverse.dropWhile
      Char.isWhitespace).reverse⟩

/-- The terminal exhaustion error string returned by `try_whisper_cli`. -/
def notAvailableMsg : String :=
  "Whisper not available. Install whisper.cpp: https://github.com/ggerganov/whisper.cpp"

/-- The `for (cmd, args) in whisper_commands` loop of `try_whisper_cli`:
spawn each candidate in order; `Err(_)` continues silently; a successful
exit reads `txt_path` and returns the trimmed text if readable; any
other outcome logs a warning and continues.  Returns the event trace and
`some transcript` on early return, `none` on fall-through. -/
def tryLoop (behav : String → CandidateBehavior) (txtPath : String) :
    List (String × List String) → List Event × Option String
  | [] => ([], none)
  | (cmd, args) :: rest =>
    match (behav cmd).outcome with
    | .notFound =>
        let r := tryLoop behav txtPath rest
        (Event.invoke cmd args :: r.1, r.2)
    | .ran success _stdout stderr =>
        if success then
          match (behav cmd).artifact with
          | some text =>
              ([Event.invoke cmd args, Event.readFile txtPath],
               some (rustTrim text))
          | none =>
              let r := tryLoop behav txtPath rest
              (Event.invoke cmd args :: Event.readFile txtPath ::
                 Event.logWarn cmd stderr :: r.1, r.2)
        else
          let r := tryLoop behav txtPath rest
          (Event.invoke cmd args :: Event.logWarn cmd stderr :: r.1, r.2)

/-- `try_whisper_cli`: run the candidate loop; on fall-through try
`faster-whisper`, whose success returns its trimmed stdout; otherwise
return the terminal `notAvailableMsg` error. -/
def try_whisper_cli (w : World) (audioPath outputPath language : String) :
    List Event × Except String String :=
  let modelPath := get_whisper_model_path w
  let txtPath := outputPath ++ ".txt"
  let r := tryLoop w.behav txtPath
    (whisper_commands modelPath audioPath language outputPath)
  match r.2 with
  | some text => (r.1, .ok text)
  | none =>
    let fwArgs := fasterWhisperArgs audioPath language
    match (w.behav "faster-whisper").outcome with
    | .ran success stdout _stderr =>
        if success then
          (r.1 ++ [Event.invoke "faster-whisper" fwArgs],
           .ok (rustTrim stdout))
        else
          (r.1 ++ [Event.invoke "faster-whisper" fwArgs],
           .error notAvailableMsg)
    | .notFound =>
        (r.1 ++ [Event.invoke "faster-whisper" fwArgs],
         .error notAvailableMsg)

/-- `transcribe_audio`: decode base64 (early error return), choose the
pid-derived temp paths, create and write the temp input file (each with
an early error return via `?`), run `try_whisper_cli`, then remove the
input file and `output_path.with_extension("txt")` before returning. -/
def transcribe_audio (w : World) (audio_data language : String) :
    List Event × Except String String :=
  match w.decode audio_data with
  | .error e => ([], .error ("Failed to decode audio: " ++ e))
  | .ok _audio_bytes =>
    let ap := audio_path w
    let op := output_path w
    if w.createOk = false then
      ([], .error ("Failed to create temp file: " ++ w.createErr))
    else if w.writeOk = false then
      ([Event.createFile ap], .error ("Failed to write audio: " ++ w.writeErr))
    else
      let r := try_whisper_cli w ap op language
      (Event.createFile ap :: Event.writeFile ap :: r.1 ++
         [Event.removeFile ap, Event.removeFile (op ++ ".txt")],
       r.2)

/-- One event's effect on the set (as a duplicate-free list) of files
this call has created and not yet removed. -/
def applyEvent (fs : List String) : Event → List String
  | .createFile p => if p ∈ fs then fs else fs ++ [p]
  | .removeFile p => fs.erase p
  | _ => fs

/-- The files created by the call that remain after its trace. -/
def remainingFiles (tr : List Event) : List String :=
  tr.foldl applyEvent []

/-- Whether any `invoke` event occurs in a trace. -/
def anyInvoke (tr : List Event) : Bool :=
  tr.any fun e => match e with | .invoke _ _ => true | _ => false

/-! ### `audio_session.rs` : `deactivate_voice_session` (macOS path) -/

/-- Log events emitted by the audio-session bindings. -/
inductive LogEvent where
  | warn (msg : String)
  | info (msg : String)
deriving DecidableEq, Repr

/-- Oracle world for one `deactivate_voice_session` call: whether
`[AVAudioSession sharedInstance]` returned null, and the `success`
return value and error-pointer nullness of the
`setActive:false withOptions:` message. -/
structure SessionWorld where
  sessionNull : Bool
  setActiveSuccess : Bool
  setActiveErrorNull : Bool
deriving DecidableEq, Repr

/-- `deactivate_voice_session` (macOS body): a null shared instance is
a hard error; otherwise the deactivation failure condition
`!success || !error.is_null()` only logs a warning, and the function
returns `Ok(())` unconditionally after logging the info line. -/
def deactivate_voice_session (w : SessionWorld) :
    List LogEvent × Except String Unit :=
  if w.sessionNull then
    ([], .error "Failed to get AVAudioSession instance")
  else
    let logs :=
      if !w.setActiveSuccess || !w.setActiveErrorNull then
        [LogEvent.warn "Audio session deactivation returned error (may be benign)"]
      else []
    (logs ++
       [LogEvent.info "Audio session deactivated, other apps notified to restore audio"],
     .ok ())

/-! ### Concrete oracle worlds used to instantiate the theorems -/

/-- A concrete oracle world: decoding succeeds with no bytes, staging
succeeds, and no candidate is installed. -/
def baseWorld : World :=
  { decode := fun _ => .ok [], tempDir := "/tmp", pid := 1234,
    createOk := true, createErr := "create failed", writeOk := true,
    writeErr := "write failed", home := some "/home/user",
    behav := fun _ => ⟨.notFound, none⟩ }

/-- Candidate behaviour where `whisper` runs, succeeds and leaves a
readable artifact. -/
def behavFirstSucceeds : String → CandidateBehavior := fun c =>
  if c = "whisper" then ⟨.ran true "" "", some " hello world \n"⟩
  else ⟨.notFound, none⟩

/-- Candidate behaviour where `whisper` runs but exits with a failure
status, and `whisper-cpp` runs, succeeds and leaves a readable
artifact. -/
def behavFirstFails : String → CandidateBehavior := fun c =>
  if c = "whisper" then ⟨.ran false "" "boom", none⟩
  else if c = "whisper-cpp" then ⟨.ran true "" "", some " second \n"⟩
  else ⟨.notFound, none⟩

/-- Candidate behaviour where `whisper` runs and exits successfully but
its artifact is unreadable, and `whisper-cpp` succeeds. -/
def behavFirstUnreadable : String → CandidateBehavior := fun c =>
  if c = "whisper" then ⟨.ran true "" "oops", none⟩
  else if c = "whisper-cpp" then ⟨.ran true "" "", some "from cpp"⟩
  else ⟨.notFound, none⟩

/-- Candidate behaviour where `whisper` succeeds and its artifact holds
only whitespace. -/
def behavWhitespaceArtifact : String → CandidateBehavior := fun c =>
  if c = "whisper" then ⟨.ran true "" "", some " \n "⟩
  else ⟨.notFound, none⟩

/-! ### C10 : invalid base64 is rejected before any effect -/

/-- C10: when the base64 decoder rejects `audio_data`,
`transcribe_audio` returns the decode error with an empty event trace:
no temporary file is created, nothing remains on the filesystem, and no
candidate is invoked. -/
theorem transcribe_audio_decode_error_no_effects
    (w : World) (audio lang e : String)
    (h : w.decode audio = Except.error e) :
    transcribe_audio w audio lang =
      ([], Except.error ("Failed to decode audio: " ++ e)) ∧
    remainingFiles (transcribe_audio w audio lang).1 = [] ∧
    anyInvoke (transcribe_audio w audio lang).1 = false := by
  simp [transcribe_audio, h, remainingFiles, anyInvoke]

/-- C10 witness: a concrete world whose decoder rejects `"a-b"`. -/
theorem transcribe_audio_decode_error_no_effects_witness :
    transcribe_audio
        { baseWorld with decode := fun _ => .error "Invalid symbol 45" }
        "a-b" "en" =
      ([], Except.error ("Failed to decode audio: " ++ "Invalid symbol 45")) ∧
    remainingFiles
        (transcribe_audio
          { baseWorld with decode := fun _ => .error "Invalid symbol 45" }
          "a-b" "en").1 = [] ∧
    anyInvoke
        (transcribe_audio
          { baseWorld with decode := fun _ => .error "Invalid symbol 45" }
          "a-b" "en").1 = false :=
  transcribe_audio_decode_error_no_effects _ "a-b" "en" "Invalid symbol 45" rfl

/-! ### C8 : staging failure is terminal and precedes any invocation -/

/-- C8: when creating or writing the temporary input file fails,
`transcribe_audio` returns the corresponding staging error and its
trace holds no `invoke` event: no candidate is attempted. -/
theorem transcribe_audio_staging_failure_terminal
    (w : World) (audio lang : String)
    (hdec : ∃ bs, w.decode audio = Except.ok bs)
    (h : w.createOk = false ∨ w.writeOk = false) :
    ((transcribe_audio w audio lang).2 =
        Except.error ("Failed to create temp file: " ++ w.createErr) ∨
     (transcribe_audio w audio lang).2 =
        Except.error ("Failed to write audio: " ++ w.writeErr)) ∧
    anyInvoke (transcribe_audio w audio lang).1 = false := by
  obtain ⟨bs, hb⟩ := hdec
  rcases hcr : w.createOk with _ | _
  · simp [transcribe_audio, hb, hcr, anyInvoke]
  · rcases h with h | h
    · rw [hcr] at h; cases h
    · simp [transcribe_audio, hb, hcr, h, anyInvoke]

/-- C8 witness: a concrete world where `write_all` fails. -/
theorem transcribe_audio_staging_failure_terminal_witness :
    ((transcribe_audio { baseWorld with writeOk := false } "AAAA" "en").2 =
        Except.error ("Failed to create temp file: " ++
          { baseWorld with writeOk := false : World }.createErr) ∨
     (transcribe_audio { baseWorld with writeOk := false } "AAAA" "en").2 =
        Except.error ("Failed to write audio: " ++
          { baseWorld with writeOk := false : World }.writeErr)) ∧
    anyInvoke
      (transcribe_audio { baseWorld with writeOk := false } "AAAA" "en").1 =
      false :=
  transcribe_audio_staging_failure_terminal _ "AAAA" "en" ⟨[], rfl⟩ (Or.inr rfl)

/-! ### C2 : exhaustion of all candidates yields the single terminal error -/

/-- C2: when every candidate (`whisper`, `whisper-cpp`,
`faster-whisper`) fails to start, `transcribe_audio` returns the single
terminal error `notAvailableMsg`, which names whisper.cpp and its
install link; no individual candidate failure is surfaced. -/
theorem transcribe_audio_all_missing_exhausted
    (w : World) (audio lang : String)
    (hdec : ∃ bs, w.decode audio = Except.ok bs)
    (hcr : w.createOk = true) (hwr : w.writeOk = true)
    (h1 : (w.behav "whisper").outcome = SpawnOutcome.notFound)
    (h2 : (w.behav "whisper-cpp").outcome = SpawnOutcome.notFound)
    (h3 : (w.behav "faster-whisper").outcome = SpawnOutcome.notFound) :
    (transcribe_audio w audio lang).2 = Except.error notAvailableMsg := by
  obtain ⟨bs, hb⟩ := hdec
  simp [transcribe_audio, hb, hcr, hwr, try_whisper_cli, whisper_commands,
    tryLoop, h1, h2, h3]

/-- C2 witness: the base world, where no candidate is installed. -/
theorem transcribe_audio_all_missing_exhausted_witness :
    (transcribe_audio baseWorld "AAAA" "en").2 =
      Except.error notAvailableMsg :=
  transcribe_audio_all_missing_exhausted baseWorld "AAAA" "en"
    ⟨[], rfl⟩ rfl rfl rfl rfl rfl

/-! ### C9 : deactivation failures are swallowed -/

/-- C9: once the shared `AVAudioSession` instance is obtained,
`deactivate_voice_session` returns `Ok(())` for every outcome of the
`setActive:false` deactivation call; a failed deactivation only emits
the warning log line. -/
theorem deactivate_voice_session_swallows_failure
    (w : SessionWorld) (h : w.sessionNull = false) :
    (deactivate_voice_session w).2 = Except.ok () ∧
    (w.setActiveSuccess = false →
      LogEvent.warn "Audio session deactivation returned error (may be benign)"
        ∈ (deactivate_voice_session w).1) := by
  constructor
  · simp [deactivate_voice_session, h]
  · intro hs
    simp [deactivate_voice_session, h, hs]

/-- C9 witness: the deactivation call fails, yet the result is `Ok`. -/
theorem deactivate_voice_session_swallows_failure_witness :
    (deactivate_voice_session ⟨false, false, true⟩).2 = Except.ok () ∧
    ((⟨false, false, true⟩ : SessionWorld).setActiveSuccess = false →
      LogEvent.warn "Audio session deactivation returned error (may be benign)"
        ∈ (deactivate_voice_session ⟨false, false, true⟩).1) :=
  deactivate_voice_session_swallows_failure ⟨false, false, true⟩ rfl

/-! ### C1 : the first candidate's success wins -/

/-- C1: if the first candidate `whisper` spawns, exits successfully and
its output artifact is readable, `transcribe_audio` returns the
artifact's content with surrounding whitespace trimmed, and no later
candidate (`whisper-cpp`, `faster-whisper`) is invoked. -/
theorem transcribe_audio_first_candidate_wins
    (w : World) (audio lang text so se : String)
    (hdec : ∃ bs, w.decode audio = Except.ok bs)
    (hcr : w.createOk = true) (hwr : w.writeOk = true)
    (ho : (w.behav "whisper").outcome = SpawnOutcome.ran true so se)
    (ha : (w.behav "whisper").artifact = some text) :
    (transcribe_audio w audio lang).2 = Except.ok (rustTrim text) ∧
    ∀ c args, c ≠ "whisper" →
      Event.invoke c args ∉ (transcribe_audio w audio lang).1 := by
  obtain ⟨bs, hb⟩ := hdec
  have htr : transcribe_audio w audio lang =
      (Event.createFile (audio_path w) :: Event.writeFile (audio_path w) ::
         [Event.invoke "whisper"
            (whisperArgs (get_whisper_model_path w) (audio_path w) lang
              (output_path w)),
          Event.readFile (output_path w ++ ".txt")] ++
         [Event.removeFile (audio_path w),
          Event.removeFile (output_path w ++ ".txt")],
       Except.ok (rustTrim text)) := by
    simp [transcribe_audio, hb, hcr, hwr, try_whisper_cli, whisper_commands,
      tryLoop, ho, ha]
  rw [htr]
  refine ⟨rfl, ?_⟩
  intro c args hne
  simp only [List.cons_append, List.nil_append, List.mem_cons,
    List.mem_singleton]
  rintro (h | h | h | h | h | h) <;> simp_all

/-- C1 witness: `whisper` succeeds with a readable artifact. -/
theorem transcribe_audio_first_candidate_wins_witness :
    (transcribe_audio { baseWorld with behav := behavFirstSucceeds }
        "AAAA" "en").2 = Except.ok (rustTrim " hello world \n") ∧
    ∀ c args, c ≠ "whisper" →
      Event.invoke c args ∉
        (transcribe_audio { baseWorld with behav := behavFirstSucceeds }
          "AAAA" "en").1 :=
  transcribe_audio_first_candidate_wins _ "AAAA" "en" " hello world \n"
    "" "" ⟨[], rfl⟩ rfl rfl rfl rfl

/-! ### C5 : a failing first candidate is absorbed, the second wins -/

/-- C5: if `whisper` starts but exits with a failure status and
`whisper-cpp` starts, succeeds and leaves a readable artifact,
`transcribe_audio` returns `whisper-cpp`'s trimmed artifact; the
`whisper` failure appears only as a `logWarn` event in the trace, not
in the returned result. -/
theorem transcribe_audio_second_candidate_wins
    (w : World) (audio lang so1 se1 so2 se2 text : String)
    (hdec : ∃ bs, w.decode audio = Except.ok bs)
    (hcr : w.createOk = true) (hwr : w.writeOk = true)
    (h1 : (w.behav "whisper").outcome = SpawnOutcome.ran false so1 se1)
    (h2o : (w.behav "whisper-cpp").outcome = SpawnOutcome.ran true so2 se2)
    (h2a : (w.behav "whisper-cpp").artifact = some text) :
    (transcribe_audio w audio lang).2 = Except.ok (rustTrim text) ∧
    Event.logWarn "whisper" se1 ∈ (transcribe_audio w audio lang).1 := by
  obtain ⟨bs, hb⟩ := hdec
  constructor
  · simp [transcribe_audio, hb, hcr, hwr, try_whisper_cli, whisper_commands,
      tryLoop, h1, h2o, h2a]
  · simp [transcribe_audio, hb, hcr, hwr, try_whisper_cli, whisper_commands,
      tryLoop, h1, h2o, h2a]

/-- C5 witness: `whisper` fails with stderr `"boom"`, `whisper-cpp`
succeeds. -/
theorem transcribe_audio_second_candidate_wins_witness :
    (transcribe_audio { baseWorld with behav := behavFirstFails }
        "AAAA" "en").2 = Except.ok (rustTrim " second \n") ∧
    Event.logWarn "whisper" "boom" ∈
      (transcribe_audio { baseWorld with behav := behavFirstFails }
        "AAAA" "en").1 :=
  transcribe_audio_second_candidate_wins _ "AAAA" "en" "" "boom" "" ""
    " second \n" ⟨[], rfl⟩ rfl rfl rfl rfl rfl

/-! ### Helper lemmas about the candidate loop -/

/-- The loop always spawns the candidate at the head of the list:
its trace contains that `invoke` event. -/
lemma invoke_mem_tryLoop (behav : String → CandidateBehavior)
    (txt c : String) (a : List String)
    (rest : List (String × List String)) :
    Event.invoke c a ∈ (tryLoop behav txt ((c, a) :: rest)).1 := by
  rcases o : (behav c).outcome with _ | ⟨s, st, sr⟩
  · simp [tryLoop, o]
  · cases s
    · simp [tryLoop, o]
    · rcases a2 : (behav c).artifact with _ | t <;> simp [tryLoop, o, a2]

/-- Every event of the candidate-loop trace appears in the
`try_whisper_cli` trace. -/
lemma mem_tryLoop_mem_cli (w : World) (ap op lang : String) (e : Event)
    (he : e ∈ (tryLoop w.behav (op ++ ".txt")
        (whisper_commands (get_whisper_model_path w) ap lang op)).1) :
    e ∈ (try_whisper_cli w ap op lang).1 := by
  simp only [try_whisper_cli]
  rcases h2 : (tryLoop w.behav (op ++ ".txt")
      (whisper_commands (get_whisper_model_path w) ap lang op)).2 with _ | t
  · rcases o3 : (w.behav "faster-whisper").outcome with _ | ⟨s3, st3, sr3⟩
    · simp [h2, o3, List.mem_append, he]
    · cases s3 <;> simp [h2, o3, List.mem_append, he]
  · simp [h2, he]

/-- A transcript produced by the candidate loop is always the trim of
the readable artifact content of one of the loop's own candidates. -/
lemma tryLoop_some_isTrim (behav : String → CandidateBehavior)
    (txt : String) :
    ∀ cs t, (tryLoop behav txt cs).2 = some t →
      ∃ c a text, (c, a) ∈ cs ∧ (behav c).artifact = some text ∧
        t = rustTrim text := by
  intro cs
  induction cs with
  | nil => intro t h; simp [tryLoop] at h
  | cons hd tl ih =>
    obtain ⟨c, a⟩ := hd
    intro t h
    rcases o : (behav c).outcome with _ | ⟨s, st, sr⟩
    · obtain ⟨c', a', text, hm, ha', ht⟩ :=
        ih t (by simpa [tryLoop, o] using h)
      exact ⟨c', a', text, List.mem_cons_of_mem _ hm, ha', ht⟩
    · cases s
      · obtain ⟨c', a', text, hm, ha', ht⟩ :=
          ih t (by simpa [tryLoop, o] using h)
        exact ⟨c', a', text, List.mem_cons_of_mem _ hm, ha', ht⟩
      · rcases a2 : (behav c).artifact with _ | txt2
        · obtain ⟨c', a', text, hm, ha', ht⟩ :=
            ih t (by simpa [tryLoop, o, a2] using h)
          exact ⟨c', a', text, List.mem_cons_of_mem _ hm, ha', ht⟩
        · refine ⟨c, a, txt2, List.mem_cons_self _ _, a2, ?_⟩
          have := h
          simp [tryLoop, o, a2] at this
          exact this.symm

/-- A transcript returned by `try_whisper_cli` is always the trim of an
actual candidate output: either the readable artifact content of
`whisper` or `whisper-cpp`, or the stdout of a successful
`faster-whisper` run. -/
lemma try_whisper_cli_ok_isTrim (w : World) (ap op lang t : String)
    (h : (try_whisper_cli w ap op lang).2 = Except.ok t) :
    (∃ c text, (c = "whisper" ∨ c = "whisper-cpp") ∧
       (w.behav c).artifact = some text ∧ t = rustTrim text) ∨
    (∃ stdout stderr, (w.behav "faster-whisper").outcome =
       SpawnOutcome.ran true stdout stderr ∧ t = rustTrim stdout) := by
  simp only [try_whisper_cli] at h
  rcases h2 : (tryLoop w.behav (op ++ ".txt")
      (whisper_commands (get_whisper_model_path w) ap lang op)).2 with _ | t2
  · rw [h2] at h
    rcases o3 : (w.behav "faster-whisper").outcome with _ | ⟨s3, st3, sr3⟩
    · simp [o3] at h
    · cases s3
      · simp [o3] at h
      · simp [o3] at h
        exact Or.inr ⟨st3, sr3, rfl, h.symm⟩
  · rw [h2] at h
    simp at h
    obtain ⟨c, a, text, hm, ha, ht⟩ :=
      tryLoop_some_isTrim w.behav (op ++ ".txt") _ t2 h2
    simp [whisper_commands] at hm
    rcases hm with ⟨hc, _⟩ | ⟨hc, _⟩
    · exact Or.inl ⟨c, text, Or.inl hc, ha, h ▸ ht⟩
    · exact Or.inl ⟨c, text, Or.inr hc, ha, h ▸ ht⟩

/-! ### C7 : unreadable artifact of a successful candidate is non-fatal -/

/-- C7: if `whisper` starts and exits successfully but its artifact is
unreadable, iteration continues: the next candidate `whisper-cpp` is
invoked, and if it succeeds with a readable artifact the call returns
its trimmed content rather than a fatal error. -/
theorem transcribe_audio_unreadable_artifact_continues
    (w : World) (audio lang so se : String)
    (hdec : ∃ bs, w.decode audio = Except.ok bs)
    (hcr : w.createOk = true) (hwr : w.writeOk = true)
    (ho : (w.behav "whisper").outcome = SpawnOutcome.ran true so se)
    (ha : (w.behav "whisper").artifact = none) :
    Event.invoke "whisper-cpp"
        (whisperArgs (get_whisper_model_path w) (audio_path w) lang
          (output_path w))
      ∈ (transcribe_audio w audio lang).1 ∧
    (∀ so2 se2 text,
      (w.behav "whisper-cpp").outcome = SpawnOutcome.ran true so2 se2 →
      (w.behav "whisper-cpp").artifact = some text →
      (transcribe_audio w audio lang).2 = Except.ok (rustTrim text)) := by
  obtain ⟨bs, hb⟩ := hdec
  constructor
  · have hmem : Event.invoke "whisper-cpp"
        (whisperArgs (get_whisper_model_path w) (audio_path w) lang
          (output_path w))
        ∈ (tryLoop w.behav (output_path w ++ ".txt")
            [("whisper-cpp",
              whisperArgs (get_whisper_model_path w) (audio_path w) lang
                (output_path w))]).1 :=
      invoke_mem_tryLoop w.behav (output_path w ++ ".txt") "whisper-cpp"
        (whisperArgs (get_whisper_model_path w) (audio_path w) lang
          (output_path w)) []
    have hstep : (tryLoop w.behav (output_path w ++ ".txt")
        (whisper_commands (get_whisper_model_path w) (audio_path w) lang
          (output_path w))).1 =
        Event.invoke "whisper"
            (whisperArgs (get_whisper_model_path w) (audio_path w) lang
              (output_path w)) ::
          Event.readFile (output_path w ++ ".txt") ::
          Event.logWarn "whisper" se ::
          (tryLoop w.behav (output_path w ++ ".txt")
            [("whisper-cpp",
              whisperArgs (get_whisper_model_path w) (audio_path w) lang
                (output_path w))]).1 := by
      simp [whisper_commands, tryLoop, ho, ha]
    have hcli : Event.invoke "whisper-cpp"
        (whisperArgs (get_whisper_model_path w) (audio_path w) lang
          (output_path w))
        ∈ (try_whisper_cli w (audio_path w) (output_path w) lang).1 := by
      apply mem_tryLoop_mem_cli
      rw [hstep]
      simp [hmem]
    simp only [transcribe_audio, hb, hcr, hwr]
    simp [List.mem_append, hcli]
  · intro so2 se2 text h2o h2a
    simp [transcribe_audio, hb, hcr, hwr, try_whisper_cli, whisper_commands,
      tryLoop, ho, ha, h2o, h2a]

/-- C7 witness: `whisper` exits successfully with an unreadable
artifact; `whisper-cpp` succeeds. -/
theorem transcribe_audio_unreadable_artifact_continues_witness :
    Event.invoke "whisper-cpp"
        (whisperArgs
          (get_whisper_model_path
            { baseWorld with behav := behavFirstUnreadable })
          (audio_path { baseWorld with behav := behavFirstUnreadable }) "en"
          (output_path { baseWorld with behav := behavFirstUnreadable }))
      ∈ (transcribe_audio { baseWorld with behav := behavFirstUnreadable }
          "AAAA" "en").1 ∧
    (∀ so2 se2 text,
      (({ baseWorld with behav := behavFirstUnreadable } : World).behav
          "whisper-cpp").outcome = SpawnOutcome.ran true so2 se2 →
      (({ baseWorld with behav := behavFirstUnreadable } : World).behav
          "whisper-cpp").artifact = some text →
      (transcribe_audio { baseWorld with behav := behavFirstUnreadable }
          "AAAA" "en").2 = Except.ok (rustTrim text)) :=
  transcribe_audio_unreadable_artifact_continues _ "AAAA" "en" "" "oops"
    ⟨[], rfl⟩ rfl rfl rfl rfl

/-! ### C6 : the transcript is trimmed, but can be empty -/

/-- C6 counterexample: `whisper` succeeds and its artifact holds only
whitespace, so `transcribe_audio` returns `Ok("")` — a successful
result whose transcript is the empty string, refuting the claim that
every successful transcript is non-empty. -/
theorem transcribe_audio_success_can_be_empty :
    (transcribe_audio { baseWorld with behav := behavWhitespaceArtifact }
        "AAAA" "en").2 = Except.ok "" := rfl

/-- C6 amended: every transcript returned on success is a candidate
output with surrounding whitespace trimmed — either the readable
artifact content of `whisper` or `whisper-cpp`, or the stdout of a
successful `faster-whisper` run; it is not guaranteed to be
non-empty. -/
theorem transcribe_audio_success_is_trimmed
    (w : World) (audio lang t : String)
    (h : (transcribe_audio w audio lang).2 = Except.ok t) :
    (∃ c text, (c = "whisper" ∨ c = "whisper-cpp") ∧
       (w.behav c).artifact = some text ∧ t = rustTrim text) ∨
    (∃ stdout stderr, (w.behav "faster-whisper").outcome =
       SpawnOutcome.ran true stdout stderr ∧ t = rustTrim stdout) := by
  simp only [transcribe_audio] at h
  rcases hb : w.decode audio with e | bs
  · rw [hb] at h; simp at h
  · rw [hb] at h
    rcases hcr : w.createOk with _ | _
    · rw [hcr] at h; simp at h
    · rw [hcr] at h
      rcases hwr : w.writeOk with _ | _
      · rw [hwr] at h; simp at h
      · rw [hwr] at h
        simp at h
        exact try_whisper_cli_ok_isTrim w (audio_path w) (output_path w)
          lang t h

/-- C6 amended witness: the successful base-world run returns the trim
of the first candidate's artifact content. -/
theorem transcribe_audio_success_is_trimmed_witness :
    (∃ c text, (c = "whisper" ∨ c = "whisper-cpp") ∧
       (({ baseWorld with behav := behavFirstSucceeds } : World).behav
           c).artifact = some text ∧ "hello world" = rustTrim text) ∨
    (∃ stdout stderr,
       (({ baseWorld with behav := behavFirstSucceeds } : World).behav
           "faster-whisper").outcome = SpawnOutcome.ran true stdout stderr ∧
       "hello world" = rustTrim stdout) :=
  transcribe_audio_success_is_trimmed
    { baseWorld with behav := behavFirstSucceeds } "AAAA" "en"
    "hello world" rfl

/-! ### C3 : temp-file cleanup fails on the write-error path -/

/-- C3: when `File::create` succeeds but `write_all` fails,
`transcribe_audio` returns the staging error through `?` without
running the cleanup at the end of the function, so the temporary input
file it just created remains on the filesystem — contradicting the
claimed invariant that both temp files are removed on every exit path.
Here the leaked file is `/tmp/whisper_input_1234.wav`. -/
theorem transcribe_audio_write_failure_leaks_input_file :
    (transcribe_audio { baseWorld with writeOk := false } "AAAA" "en").2 =
      Except.error ("Failed to write audio: " ++ "write failed") ∧
    remainingFiles
        (transcribe_audio { baseWorld with writeOk := false }
          "AAAA" "en").1 =
      ["/tmp/whisper_input_1234.wav"] :=
  ⟨rfl, rfl⟩

/-! ### C4 : temp-file names derive from the process id alone -/

/-- C4 counterexample: two calls with distinct payloads in the same
process (same world, hence same `std::process::id()`) both create their
temporary input file at the very same path
`/tmp/whisper_input_1234.wav` — the names chosen by two concurrent
calls are not distinct. -/
theorem transcribe_audio_same_process_name_collision :
    (transcribe_audio baseWorld "AAAA" "en").1.head? =
      some (Event.createFile "/tmp/whisper_input_1234.wav") ∧
    (transcribe_audio baseWorld "BBBB" "en").1.head? =
      some (Event.createFile "/tmp/whisper_input_1234.wav") :=
  ⟨rfl, rfl⟩

/-- C4 amended: the temporary input and output file names are derived
from the process id (and temp directory) alone — there is no
request-scoped token — so any two calls with the same process id choose
identical temporary file names; concurrent invocations within one
process therefore collide rather than never collide. -/
theorem temp_paths_depend_only_on_pid (w1 w2 : World)
    (hp : w1.pid = w2.pid) (ht : w1.tempDir = w2.tempDir) :
    audio_path w1 = audio_path w2 ∧ output_path w1 = output_path w2 := by
  simp [audio_path, output_path, pathJoin, hp, ht]

/-- C4 amended witness: two different worlds sharing pid 1234 choose
identical paths. -/
theorem temp_paths_depend_only_on_pid_witness :
    audio_path baseWorld =
      audio_path { baseWorld with behav := behavFirstSucceeds } ∧
    output_path baseWorld =
      output_path { baseWorld with behav := behavFirstSucceeds } :=
  temp_paths_depend_only_on_pid baseWorld
    { baseWorld with behav := behavFirstSucceeds } rfl rfl

end LingoLeap
